import Mathlib

/-!
Verification of the InterAIct social-skills learning application.

This file gives a shallow embedding, in Lean 4, of the core logic of the
repository: the emotion/attention classifier, the report aggregation, the
phase-transition state machine of the scenario engine, the response/alert
recording layer over the SQLite store (modelled as explicit state with
transactional commit/rollback semantics), and the scenario DAO with its
process-local cache.  Each embedded definition is translated directly from
the corresponding Python function; theorems then settle the specification
claims about those functions.
-/

namespace InterAIct

/-! ## Attention classification
Embedding of EmotionDetector._analyze_attention (model_preparation.py,
lines 312-350) and get_attention_state (webrtc_emotion_detection.py,
lines 144-154). -/

/-- The emotion-to-attention mapping at the start of _analyze_attention:
Natural/Joy with confidence above 0.5 is Attentive, Anger/Surprise is
Partially Attentive, Fear/Sadness is Not Attentive, anything else Unknown. -/
def mapEmotionToAttention (emotion : String) (confidence : ℚ) : String :=
  if (emotion = "Natural" ∨ emotion = "Joy") ∧ 1 / 2 < confidence then "Attentive"
  else if emotion = "Anger" ∨ emotion = "Surprise" then "Partially Attentive"
  else if emotion = "Fear" ∨ emotion = "Sadness" then "Not Attentive"
  else "Unknown"

/-- The sustained-attention cascade of _analyze_attention: the Python code
compares counts against len(history) (equality with the Unknown count) and
against len(history) / 2 (true division, hence the rational comparison). -/
def analyzeSustainedAttention (attention_history : List String) : String :=
  if attention_history.count "Unknown" = attention_history.length then "Unknown"
  else if (attention_history.length : ℚ) / 2 < (attention_history.count "Attentive" : ℚ) then
    "Attentive"
  else if (attention_history.length : ℚ) / 2 < (attention_history.count "Not Attentive" : ℚ) then
    "Not Attentive"
  else "Partially Attentive"

/-- One call of _analyze_attention: map the emotion, append the result to the
rolling history (a deque with maxlen 10, so only the last ten entries are
kept), and classify the sustained attention from the updated history.
Returns (updated history, attention_state, sustained_attention). -/
def analyzeAttention (attention_history : List String) (emotion : String)
    (confidence : ℚ) : List String × String × String :=
  let attention_state := mapEmotionToAttention emotion confidence
  let appended := attention_history ++ [attention_state]
  let history := appended.drop (appended.length - 10)
  (history, attention_state, analyzeSustainedAttention history)

/-- Modelled from the spec claim wording, for comparison with the code:
Unknown if every entry is Unknown, otherwise Attentive on a strict majority
of Attentive entries, otherwise Not Attentive on a strict majority of
Not Attentive entries, otherwise Partially Attentive. -/
def sustainedAttentionSpec (history : List String) : String :=
  if ∀ x ∈ history, x = "Unknown" then "Unknown"
  else if history.length < 2 * history.count "Attentive" then "Attentive"
  else if history.length < 2 * history.count "Not Attentive" then "Not Attentive"
  else "Partially Attentive"

/-- get_attention_state (webrtc_emotion_detection.py): Unknown whenever the
camera is disabled or the WebRTC context is inactive, otherwise the latest
recorded attention value. -/
def get_attention_state (camera_enabled : Bool) (webrtc_ctx_active : Bool)
    (latest_attention : String) : String :=
  if !camera_enabled || !webrtc_ctx_active then "Unknown" else latest_attention

/-- The three coarse classifications named by the spec. -/
def coarseAttentionStates : List String :=
  ["Attentive", "Partially Attentive", "Not Attentive"]

/-- The full range of attention values the code produces. -/
def attentionStatesWithUnknown : List String :=
  ["Attentive", "Partially Attentive", "Not Attentive", "Unknown"]

/-! ## Attention score
Embedding of calculate_attention_score (interAIct/pages/report.py,
lines 8-33).  The DataFrame column of attention states is modelled as a
list of strings; value_counts iterates the distinct states with their
multiplicities, which List.dedup together with List.count reproduces. -/

/-- The per-state weight table: weights.get(state, 5) over the dict
with Attentive 10, Partially Attentive 6, Not Attentive 2, Unknown 5. -/
def attentionWeight (state : String) : ℚ :=
  if state = "Attentive" then 10
  else if state = "Partially Attentive" then 6
  else if state = "Not Attentive" then 2
  else if state = "Unknown" then 5
  else 5

/-- calculate_attention_score: 0 on an empty frame, otherwise the
count-weighted average over the value counts of the attention states. -/
def calculate_attention_score (attention_states : List String) : ℚ :=
  if attention_states.length = 0 then 0
  else
    let total_score :=
      (attention_states.dedup.map
        (fun s => attentionWeight s * (attention_states.count s : ℚ))).sum
    let total_weight :=
      (attention_states.dedup.map (fun s => (attention_states.count s : ℚ))).sum
    if total_weight = 0 then 0 else total_score / total_weight

/-! ## Phase state machine
Embedding of the navigation part of handle_option_selection
(interAIct/pages/phase_based_scenario.py lines 306-375; the copy in
emo_buddy/pages/phase_based_scenario.py lines 305-374 is identical). -/

/-- The Streamlit session-state fields that handle_option_selection reads
and writes while resolving a transition. -/
structure NavState where
  current_scenario_index : ℕ
  current_phase : String
  scenario_completed : Bool
  reminder_phase : Bool
  next_after_reminder : Option String
  scenario_completed_indexes : List ℕ
deriving DecidableEq, Repr

/-- Python truthiness of an optional string: None and the empty string are
falsy, every other string is truthy. -/
def pythonTruthy : Option String → Bool
  | none => false
  | some s => s ≠ ""

/-- The transition part of handle_option_selection, applied to the selected
option's next_phase.  In the real_exit branch the code marks the scenario
completed, records the index as completed, advances current_scenario_index
when current_index < len(scenarios) - 1 (deleting current_phase in that
case), and finally sets current_phase to "exit" in both cases. -/
def handleOptionTransition (next_phase : Option String) (numScenarios : ℕ)
    (st : NavState) : NavState :=
  if next_phase = some "real_exit" then
    let st1 := { st with scenario_completed := true }
    let current_index : ℕ := st1.current_scenario_index
    let st2 :=
      if current_index ∈ st1.scenario_completed_indexes then st1
      else { st1 with
              scenario_completed_indexes :=
                st1.scenario_completed_indexes ++ [current_index] }
    let st3 :=
      if (current_index : ℤ) < (numScenarios : ℤ) - 1 then
        { st2 with current_scenario_index := current_index + 1 }
      else st2
    { st3 with current_phase := "exit" }
  else if next_phase = some "restart" then
    { st with current_phase := "entering" }
  else if next_phase = some "end_waiting" ∨ next_phase = some "end_no_slide" then
    { st with current_phase := next_phase.getD "" }
  else if next_phase = some "waiting_reminder" then
    { st with
        reminder_phase := true
        next_after_reminder := some "sliding"
        current_phase := "waiting_reminder" }
  else if pythonTruthy next_phase then
    { st with current_phase := next_phase.getD "" }
  else
    { st with current_phase := "exit" }

/-! ## Populated scenario graphs
The phase/option graphs inserted by populate_initial_data
(emo_buddy/database/db_schema.py lines 164-988).  Each scenario is listed
as (phase_id, options), each option as (option_id, next_phase); the
display-only fields (texts, icons, emotions, feedback) play no role in any
transition and are omitted. -/

/-- Scenario 1, "Taking Turns on the Slide". -/
def slideScenarioPhases : List (String × List (String × Option String)) :=
  [ ("entering", [("a", some "waiting"), ("b", some "end_no_slide")]),
    ("waiting", [("a", some "sliding"), ("b", some "waiting_reminder"),
                 ("c", some "end_waiting"), ("d", some "sliding")]),
    ("waiting_reminder", [("a", some "sliding"), ("b", some "end_waiting")]),
    ("sliding", [("a", some "exit"), ("b", some "exit"), ("c", some "sliding_help")]),
    ("sliding_help", [("a", some "exit"), ("b", some "exit"), ("c", some "exit")]),
    ("end_waiting", [("a", some "exit")]),
    ("end_no_slide", [("a", some "exit")]),
    ("exit", [("a", some "real_exit")]) ]

/-- Scenario 2, "Sharing Toys at Playtime". -/
def sharingScenarioPhases : List (String × List (String × Option String)) :=
  [ ("entering", [("a", some "sharing"), ("b", some "reminder"), ("c", some "waiting")]),
    ("sharing", [("a", some "playing_together"), ("b", some "waiting_turn"),
                 ("c", some "new_toy")]),
    ("reminder", [("a", some "sharing"), ("b", some "waiting")]),
    ("waiting", [("a", some "timer"), ("b", some "finish_game")]),
    ("playing_together", [("a", some "exit")]),
    ("waiting_turn", [("a", some "exit"), ("b", some "exit")]),
    ("new_toy", [("a", some "exit"), ("b", some "exit")]),
    ("timer", [("a", some "exit")]),
    ("finish_game", [("a", some "exit")]),
    ("exit", [("a", some "real_exit")]) ]

/-- Scenario 3, "Making New Friends at School". -/
def friendsScenarioPhases : List (String × List (String × Option String)) :=
  [ ("entering", [("a", some "introduce"), ("b", some "observe"), ("c", some "solo_play")]),
    ("introduce", [("a", some "joining"), ("b", some "ball_request"), ("c", some "compliment")]),
    ("observe", [("a", some "joining"), ("b", some "continue_observing")]),
    ("solo_play", [("a", some "new_friend"), ("b", some "explain_game")]),
    ("joining", [("a", some "playing_game"), ("b", some "playing_game")]),
    ("ball_request", [("a", some "joining"), ("b", some "clarify_request")]),
    ("compliment", [("a", some "joining")]),
    ("continue_observing", [("a", some "introduce"), ("b", some "they_approach")]),
    ("they_approach", [("a", some "joining")]),
    ("explain_game", [("a", some "new_friend"), ("b", some "stay_solo")]),
    ("clarify_request", [("a", some "joining"), ("b", some "solo_play")]),
    ("new_friend", [("a", some "exit")]),
    ("stay_solo", [("a", some "exit"), ("b", some "reconsider")]),
    ("reconsider", [("a", some "exit")]),
    ("playing_game", [("a", some "learn_trick"), ("b", some "show_off")]),
    ("learn_trick", [("a", some "exit")]),
    ("show_off", [("a", some "apologize"), ("b", some "laugh_reaction")]),
    ("apologize", [("a", some "learn_trick"), ("b", some "exit")]),
    ("laugh_reaction", [("a", some "apologize")]),
    ("exit", [("a", some "real_exit")]) ]

/-- All three populated scenario graphs. -/
def populatedScenarios : List (List (String × List (String × Option String))) :=
  [slideScenarioPhases, sharingScenarioPhases, friendsScenarioPhases]

/-- The phases the spec calls terminal. -/
def terminalPhases : List String := ["exit", "end_waiting", "end_no_slide"]

/-! ## Response store and transactions
Embedding of db_service.py (ineractAI/database/db_service.py): the mutable
tables touched by record_response and record_emotion_detection, and the
commit/rollback semantics of DbTransaction (lines 61-82).  AUTOINCREMENT
row ids are modelled by per-table counters.  A failure oracle indexes the
SQL statements a call executes; statement i raising sqlite3.Error is
modelled by the oracle returning true at i. -/

/-- A row of the responses table. -/
structure ResponseRow where
  id : ℕ
  session_id : String
  scenario_id : ℕ
  phase_id : String
  option_id : String
  emotion : Option String
deriving DecidableEq, Repr

/-- A row of the parent_alerts table. -/
structure AlertRow where
  id : ℕ
  session_id : String
  scenario_id : ℕ
  phase_id : String
  emotion : String
deriving DecidableEq, Repr

/-- A row of the emotion_detections table. -/
structure EmotionDetectionRow where
  id : ℕ
  session_id : String
  emotion : String
  confidence : ℚ
deriving DecidableEq, Repr

/-- The database state visible to the recording services. -/
structure DbState where
  responses : List ResponseRow
  parent_alerts : List AlertRow
  emotion_detections : List EmotionDetectionRow
  nextResponseId : ℕ
  nextAlertId : ℕ
  nextEmotionId : ℕ
deriving DecidableEq, Repr

/-- DbTransaction.__exit__: the body runs against a pending copy of the
state; if it raises, the transaction is rolled back (the committed state is
the entry state) and the exception propagates; otherwise the pending state
is committed. -/
def DbTransaction (body : DbState → Except String (DbState × ℕ))
    (db : DbState) : DbState × Except String ℕ :=
  match body db with
  | Except.error e => (db, Except.error e)
  | Except.ok (pending, v) => (pending, Except.ok v)

/-- The WHERE clause of the duplicate check in record_response. -/
def responseMatches (session_id : String) (scenario_id : ℕ)
    (phase_id option_id : String) (r : ResponseRow) : Bool :=
  r.session_id == session_id && r.scenario_id == scenario_id &&
    r.phase_id == phase_id && r.option_id == option_id

/-- The emotions that trigger a parent alert in record_response. -/
def negativeEmotions : List (Option String) :=
  [some "angry", some "sad", some "negative"]

/-- The body of record_response (db_service.py lines 186-226).  Statement 0
is the duplicate-check SELECT, statement 1 the response INSERT, statement 2
the parent-alert INSERT.  The returned value is cursor.lastrowid, which is
the rowid of the most recent INSERT on the cursor (so the alert id when an
alert was inserted). -/
def recordResponseBody (fail : ℕ → Bool) (session_id : String)
    (scenario_id : ℕ) (phase_id option_id : String) (emotion : Option String)
    (db : DbState) : Except String (DbState × ℕ) :=
  if fail 0 then Except.error "Error recording response" else
  match db.responses.find? (responseMatches session_id scenario_id phase_id option_id) with
  | some existing => Except.ok (db, existing.id)
  | none =>
    if fail 1 then Except.error "Error recording response" else
    let rid := db.nextResponseId
    let db1 := { db with
      responses := db.responses ++
        [⟨rid, session_id, scenario_id, phase_id, option_id, emotion⟩]
      nextResponseId := rid + 1 }
    if emotion ∈ negativeEmotions then
      if fail 2 then Except.error "Error recording response" else
      let aid := db1.nextAlertId
      let db2 := { db1 with
        parent_alerts := db1.parent_alerts ++
          [⟨aid, session_id, scenario_id, phase_id, emotion.getD ""⟩]
        nextAlertId := aid + 1 }
      Except.ok (db2, aid)
    else Except.ok (db1, rid)

/-- record_response: the body run inside a DbTransaction. -/
def record_response (fail : ℕ → Bool) (session_id : String) (scenario_id : ℕ)
    (phase_id option_id : String) (emotion : Option String)
    (db : DbState) : DbState × Except String ℕ :=
  DbTransaction (recordResponseBody fail session_id scenario_id phase_id option_id emotion) db

/-- The body of record_emotion_detection (db_service.py lines 229-243):
one INSERT into emotion_detections. -/
def recordEmotionDetectionBody (fail : ℕ → Bool) (session_id emotion : String)
    (confidence : ℚ) (db : DbState) : Except String (DbState × ℕ) :=
  if fail 0 then Except.error "Error recording emotion" else
  let eid := db.nextEmotionId
  Except.ok ({ db with
    emotion_detections := db.emotion_detections ++
      [⟨eid, session_id, emotion, confidence⟩]
    nextEmotionId := eid + 1 }, eid)

/-- record_emotion_detection: the body run inside a DbTransaction. -/
def record_emotion_detection (fail : ℕ → Bool) (session_id emotion : String)
    (confidence : ℚ) (db : DbState) : DbState × Except String ℕ :=
  DbTransaction (recordEmotionDetectionBody fail session_id emotion confidence) db

/-! ## Session responses and report aggregation
Embedding of get_session_responses (db_service.py lines 268-327) and of the
response table of show_report (interAIct/pages/report.py lines 183-241). -/

/-- A row of the joined SELECT in get_session_responses, restricted to the
fields the deduplication and the report statistics read. -/
structure SessionResponseJoinRow where
  id : ℕ
  scenario_id : ℕ
  phase_id : String
  option_id : String
  emotion : Option String
  timestamp : ℕ
  positive : Bool
  guidance : Bool
deriving DecidableEq, Repr

/-- The deduplication key (scenario_id, phase_id, option_id). -/
def responseKey (r : SessionResponseJoinRow) : ℕ × String × String :=
  (r.scenario_id, r.phase_id, r.option_id)

/-- The dedup loop of get_session_responses: walk the rows in order, keep a
row when its key has not been seen, remember seen keys. -/
def dedupResponses : List SessionResponseJoinRow → List (ℕ × String × String) →
    List SessionResponseJoinRow
  | [], _ => []
  | r :: rest, seen_keys =>
    if responseKey r ∈ seen_keys then dedupResponses rest seen_keys
    else r :: dedupResponses rest (responseKey r :: seen_keys)

/-- get_session_responses on the session's rows of the responses table:
ORDER BY r.timestamp, then deduplicate keeping first occurrences. -/
def get_session_responses (rows : List SessionResponseJoinRow) :
    List SessionResponseJoinRow :=
  dedupResponses (rows.insertionSort (fun a b => a.timestamp ≤ b.timestamp)) []

/-- The summary statistics of show_report: deduplicate the received
responses once more, then count the rows whose Positive Choice column is
Yes, the rows whose Needed Guidance column is Yes, and the total.
Returns (positive_choices, needed_guidance, total_responses). -/
def showReportStats (responses : List SessionResponseJoinRow) : ℕ × ℕ × ℕ :=
  let unique_responses := dedupResponses responses []
  (unique_responses.countP (fun r => r.positive),
   unique_responses.countP (fun r => r.guidance),
   unique_responses.length)

/-! ## Scenario DAO with process-local cache
Embedding of ScenarioDAO (emo_buddy/database/scenario_dao.py): the content
tables, the nested structure built by get_scenario_by_id, and the cache
that every successful mutation clears.  Mutations take a failure flag
modelling sqlite3.Error: on failure they roll back, leave the cache alone
and return False. -/

/-- A row of the scenarios table. -/
structure ScenarioRow where
  id : ℕ
  title : String
  description : String
  image_path : String
deriving DecidableEq, Repr

/-- A row of the phases table; id is the AUTOINCREMENT primary key and
phase_id the string identifier. -/
structure PhaseRow where
  id : ℕ
  scenario_id : ℕ
  phase_id : String
  description : String
  prompt : String
deriving DecidableEq, Repr

/-- A row of the options table; phase_id refers to PhaseRow.id. -/
structure OptionRow where
  id : ℕ
  phase_id : ℕ
  option_id : String
  text : String
  icon : Option String
  emotion : Option String
  next_phase : Option String
deriving DecidableEq, Repr

/-- A row of the feedback table; phase_id refers to PhaseRow.id. -/
structure FeedbackRow where
  id : ℕ
  phase_id : ℕ
  option_id : String
  text : String
  positive : Bool
  guidance : Bool
deriving DecidableEq, Repr

/-- The scenario content store, with AUTOINCREMENT counters. -/
structure Store where
  scenarios : List ScenarioRow
  phases : List PhaseRow
  options : List OptionRow
  feedback : List FeedbackRow
  nextPhaseRowId : ℕ
  nextOptionRowId : ℕ
  nextFeedbackRowId : ℕ
deriving DecidableEq, Repr

/-- One value of the feedback dict built per phase. -/
structure FeedbackEntry where
  text : String
  positive : Bool
  guidance : Bool
deriving DecidableEq, Repr

/-- One element of the phases list of the nested scenario structure. -/
structure PhaseNode where
  phase_id : String
  description : String
  prompt : String
  options : List OptionRow
  feedback : List (String × FeedbackEntry)
deriving DecidableEq, Repr

/-- The nested scenario structure returned by get_scenario_by_id. -/
structure ScenarioNode where
  id : ℕ
  title : String
  description : String
  image_path : String
  phases : List PhaseNode
deriving DecidableEq, Repr

/-- The query part of get_scenario_by_id (scenario_dao.py lines 61-138):
find the scenario row, then for each phase (ORDER BY id) collect its
options (ORDER BY option_id) and its feedback dict. -/
def buildScenario (store : Store) (scenario_id : ℕ) : Option ScenarioNode :=
  match store.scenarios.find? (fun s => s.id == scenario_id) with
  | none => none
  | some row =>
    let phaseRows := (store.phases.filter
      (fun p => p.scenario_id == scenario_id)).insertionSort (fun a b => a.id ≤ b.id)
    some
      { id := row.id
        title := row.title
        description := row.description
        image_path := row.image_path
        phases := phaseRows.map (fun ph =>
          { phase_id := ph.phase_id
            description := ph.description
            prompt := ph.prompt
            options := (store.options.filter
              (fun o => o.phase_id == ph.id)).insertionSort
                (fun a b => a.option_id ≤ b.option_id)
            feedback := (store.feedback.filter (fun f => f.phase_id == ph.id)).map
              (fun f => (f.option_id,
                { text := f.text, positive := f.positive, guidance := f.guidance })) }) }

/-- The process-local scenario cache, keyed by strings. -/
def ScenarioCache : Type := List (String × ScenarioNode)

/-- The dict key used for a scenario, f-string scenario_{scenario_id}. -/
def scenarioCacheKey (scenario_id : ℕ) : String :=
  "scenario_" ++ toString scenario_id

/-- get_scenario_by_id with its cache check: on a hit return the cached
structure without querying; on a miss query, cache a non-None result and
return it.  The Bool records whether the database was queried. -/
def get_scenario_by_id (store : Store) (cache : ScenarioCache)
    (scenario_id : ℕ) : Option ScenarioNode × ScenarioCache × Bool :=
  let cache_key := scenarioCacheKey scenario_id
  match List.lookup cache_key (cache : List (String × ScenarioNode)) with
  | some cached => (some cached, cache, false)
  | none =>
    match buildScenario store scenario_id with
    | none => (none, cache, true)
    | some scenario =>
      (some scenario, ((cache_key, scenario) :: cache : List (String × ScenarioNode)), true)

/-- The option payload of add_scenario and update_scenario input data. -/
structure OptionData where
  id : String
  text : String
  icon : Option String
  emotion : Option String
  next_phase : Option String
deriving DecidableEq, Repr

/-- The phase payload of add_scenario and update_scenario input data. -/
structure PhaseData where
  phase_id : String
  description : String
  prompt : String
  options : List OptionData
  feedback : List (String × FeedbackEntry)
deriving DecidableEq, Repr

/-- The scenario payload of add_scenario input data. -/
structure ScenarioData where
  id : ℕ
  title : String
  description : String
  image_path : String
  phases : List PhaseData
deriving DecidableEq, Repr

/-- The per-phase insert loop shared by add_scenario and update_scenario:
insert the phase row (cursor.lastrowid becomes the options' and feedback's
phase_id), then its options, then its feedback. -/
def insertPhaseData (scenario_id : ℕ) (store : Store) (ph : PhaseData) : Store :=
  let phase_pk := store.nextPhaseRowId
  let st1 := { store with
    phases := store.phases ++
      [⟨phase_pk, scenario_id, ph.phase_id, ph.description, ph.prompt⟩]
    nextPhaseRowId := phase_pk + 1 }
  let st2 := ph.options.foldl (fun acc o =>
    { acc with
      options := acc.options ++
        [⟨acc.nextOptionRowId, phase_pk, o.id, o.text, o.icon, o.emotion, o.next_phase⟩]
      nextOptionRowId := acc.nextOptionRowId + 1 }) st1
  ph.feedback.foldl (fun acc f =>
    { acc with
      feedback := acc.feedback ++
        [⟨acc.nextFeedbackRowId, phase_pk, f.1, f.2.text, f.2.positive, f.2.guidance⟩]
      nextFeedbackRowId := acc.nextFeedbackRowId + 1 }) st2

/-- add_scenario (scenario_dao.py lines 140-230): on sqlite error roll back
and return False leaving the cache alone; on success insert the scenario
with its phases, clear the entire cache and return True. -/
def add_scenario (fail : Bool) (store : Store) (cache : ScenarioCache)
    (data : ScenarioData) : Store × ScenarioCache × Bool :=
  if fail then (store, cache, false)
  else
    let st1 := { store with
      scenarios := store.scenarios ++
        [⟨data.id, data.title, data.description, data.image_path⟩] }
    let st2 := data.phases.foldl (insertPhaseData data.id) st1
    (st2, ([] : List (String × ScenarioNode)), true)

/-- update_scenario (scenario_dao.py lines 232-338): update the scenario
row, delete the scenario's phases with their options and feedback,
re-insert the new phases, clear the cache on success. -/
def update_scenario (fail : Bool) (store : Store) (cache : ScenarioCache)
    (scenario_id : ℕ) (data : ScenarioData) : Store × ScenarioCache × Bool :=
  if fail then (store, cache, false)
  else
    let phase_ids := (store.phases.filter
      (fun p => p.scenario_id == scenario_id)).map (fun p => p.id)
    let st1 := { store with
      scenarios := store.scenarios.map (fun s =>
        if s.id == scenario_id then
          { s with title := data.title, description := data.description,
                   image_path := data.image_path }
        else s)
      options := store.options.filter (fun o => !(phase_ids.contains o.phase_id))
      feedback := store.feedback.filter (fun f => !(phase_ids.contains f.phase_id))
      phases := store.phases.filter (fun p => !(p.scenario_id == scenario_id)) }
    let st2 := data.phases.foldl (insertPhaseData scenario_id) st1
    (st2, ([] : List (String × ScenarioNode)), true)

/-- delete_scenario (scenario_dao.py lines 340-379): delete the scenario's
options, feedback, phases and the scenario row; clear the cache on
success. -/
def delete_scenario (fail : Bool) (store : Store) (cache : ScenarioCache)
    (scenario_id : ℕ) : Store × ScenarioCache × Bool :=
  if fail then (store, cache, false)
  else
    let phase_ids := (store.phases.filter
      (fun p => p.scenario_id == scenario_id)).map (fun p => p.id)
    ({ store with
        options := store.options.filter (fun o => !(phase_ids.contains o.phase_id))
        feedback := store.feedback.filter (fun f => !(phase_ids.contains f.phase_id))
        phases := store.phases.filter (fun p => !(p.scenario_id == scenario_id))
        scenarios := store.scenarios.filter (fun s => !(s.id == scenario_id)) },
     ([] : List (String × ScenarioNode)), true)

/-! ## Theorems -/

lemma count_eq_length_iff_all (l : List String) (a : String) :
    l.count a = l.length ↔ ∀ x ∈ l, x = a := by
  rw [List.count_eq_length]
  constructor
  · intro hh x hx
    exact (hh x hx).symm
  · intro hh x hx
    exact (hh x hx).symm

lemma half_lt_count_iff (n m : ℕ) : ((n : ℚ) / 2 < (m : ℚ)) ↔ n < 2 * m := by
  rw [div_lt_iff (by norm_num : (0:ℚ) < 2), mul_comm (m : ℚ) 2]
  exact_mod_cast Iff.rfl

/-- C5: the sustained attention classification derived from the rolling
attention history is Unknown when every entry is Unknown, otherwise
Attentive on a strict majority of Attentive entries, otherwise
Not Attentive on a strict majority of Not Attentive entries, otherwise
Partially Attentive. -/
theorem sustained_attention_matches_spec (history : List String) :
    analyzeSustainedAttention history = sustainedAttentionSpec history := by
  unfold analyzeSustainedAttention sustainedAttentionSpec
  simp only [count_eq_length_iff_all, half_lt_count_iff]

lemma list_sum_map_add (f g : String → ℚ) (l : List String) :
    (l.map fun x => f x + g x).sum = (l.map f).sum + (l.map g).sum := by
  induction l with
  | nil => simp
  | cons a t ih =>
    simp [ih]
    ring

lemma sum_map_ite_eq (l : List String) (hnd : l.Nodup) (a : String) (f : String → ℚ) :
    (l.map fun s => if s = a then f s else 0).sum = if a ∈ l then f a else 0 := by
  rw [← List.sum_toFinset _ hnd, Finset.sum_ite_eq' l.toFinset a f]
  simp

lemma sum_dedup_count_mul (f : String → ℚ) (l : List String) :
    (l.dedup.map fun s => f s * (l.count s : ℚ)).sum = (l.map f).sum := by
  induction l with
  | nil => simp
  | cons a t ih =>
    have hcount : ∀ s : String,
        (((a :: t).count s : ℚ)) = (t.count s : ℚ) + (if s = a then 1 else 0) := by
      intro s
      rw [List.count_cons]
      by_cases h : a = s
      · subst h
        simp
      · have h2 : ¬ s = a := fun hc => h hc.symm
        simp [h, h2]
    have hfun : (fun s => f s * ((a :: t).count s : ℚ))
        = fun s => f s * (t.count s : ℚ) + (if s = a then f s else 0) := by
      funext s
      rw [hcount s, mul_add]
      by_cases h : s = a <;> simp [h]
    by_cases hmem : a ∈ t
    · rw [List.dedup_cons_of_mem hmem, hfun, list_sum_map_add,
        sum_map_ite_eq t.dedup t.nodup_dedup a f, ih]
      rw [if_pos (List.mem_dedup.mpr hmem)]
      simp
      ring
    · rw [List.dedup_cons_of_not_mem hmem]
      simp only [List.map_cons, List.sum_cons]
      rw [hfun, list_sum_map_add, sum_map_ite_eq t.dedup t.nodup_dedup a f,
        if_neg (fun hc => hmem (List.mem_dedup.mp hc)), ih]
      have hz : t.count a = 0 := List.count_eq_zero_of_not_mem hmem
      rw [List.count_cons_self, hz]
      simp

lemma sum_map_one (l : List String) : (l.map fun _ => (1 : ℚ)).sum = (l.length : ℚ) := by
  induction l with
  | nil => simp
  | cons a t ih =>
    simp [ih]
    ring

lemma sum_dedup_count (l : List String) :
    (l.dedup.map fun s => (l.count s : ℚ)).sum = (l.length : ℚ) := by
  have h := sum_dedup_count_mul (fun _ => 1) l
  simp only [one_mul] at h
  rw [h, sum_map_one]

lemma attentionWeight_bounds (s : String) :
    2 ≤ attentionWeight s ∧ attentionWeight s ≤ 10 := by
  unfold attentionWeight
  split_ifs <;> norm_num

lemma calculate_attention_score_eq (l : List String) (hl : l ≠ []) :
    calculate_attention_score l = (l.map attentionWeight).sum / (l.length : ℚ) := by
  have hlen : l.length ≠ 0 := fun hc => hl (List.length_eq_zero.mp hc)
  have hlenq : ((l.length : ℚ)) ≠ 0 := Nat.cast_ne_zero.mpr hlen
  unfold calculate_attention_score
  rw [if_neg hlen]
  simp only [sum_dedup_count_mul, sum_dedup_count]
  rw [if_neg hlenq]

lemma calculate_attention_score_bounds (l : List String) (hl : l ≠ []) :
    2 ≤ calculate_attention_score l ∧ calculate_attention_score l ≤ 10 := by
  rw [calculate_attention_score_eq l hl]
  have hpos : (0 : ℚ) < (l.length : ℚ) := by
    exact_mod_cast List.length_pos.mpr hl
  have hub : (l.map attentionWeight).sum ≤ (l.map attentionWeight).length • (10 : ℚ) := by
    refine List.sum_le_card_nsmul _ _ ?_
    intro x hx
    obtain ⟨s, _, rfl⟩ := List.mem_map.mp hx
    exact (attentionWeight_bounds s).2
  have hlb : (l.map attentionWeight).length • (2 : ℚ) ≤ (l.map attentionWeight).sum := by
    refine List.card_nsmul_le_sum _ _ ?_
    intro x hx
    obtain ⟨s, _, rfl⟩ := List.mem_map.mp hx
    exact (attentionWeight_bounds s).1
  rw [List.length_map, nsmul_eq_mul] at hub hlb
  constructor
  · rw [le_div_iff hpos]
    calc 2 * (l.length : ℚ) = (l.length : ℚ) * 2 := by ring
    _ ≤ (l.map attentionWeight).sum := hlb
  · rw [div_le_iff hpos]
    calc (l.map attentionWeight).sum ≤ (l.length : ℚ) * 10 := hub
    _ = 10 * (l.length : ℚ) := by ring

/-- C10: calculate_attention_score is 0 on the empty metric list; on any
input it lies in [0, 10]; on a non-empty list it is the count-weighted
average of the per-state weights and lies in [2, 10]. -/
theorem calculate_attention_score_weighted_average :
    calculate_attention_score [] = 0
    ∧ (∀ l : List String,
        0 ≤ calculate_attention_score l ∧ calculate_attention_score l ≤ 10)
    ∧ (∀ l : List String, l ≠ [] →
        calculate_attention_score l = (l.map attentionWeight).sum / (l.length : ℚ)
        ∧ 2 ≤ calculate_attention_score l ∧ calculate_attention_score l ≤ 10) := by
  refine ⟨by rfl, ?_, ?_⟩
  · intro l
    by_cases hl : l = []
    · subst hl
      norm_num [calculate_attention_score]
    · obtain ⟨h2, h10⟩ := calculate_attention_score_bounds l hl
      exact ⟨le_trans (by norm_num) h2, h10⟩
  · intro l hl
    exact ⟨calculate_attention_score_eq l hl, calculate_attention_score_bounds l hl⟩

/-- Witness for C10 at the singleton list with an Attentive entry. -/
theorem calculate_attention_score_weighted_average_witness :
    calculate_attention_score ["Attentive"]
      = ((["Attentive"].map attentionWeight).sum / ((["Attentive"] : List String).length : ℚ))
    ∧ 2 ≤ calculate_attention_score ["Attentive"]
    ∧ calculate_attention_score ["Attentive"] ≤ 10 :=
  calculate_attention_score_weighted_average.2.2 ["Attentive"] (by decide)

lemma handleOptionTransition_plain (n : ℕ) (st : NavState) (s : String)
    (h1 : s ≠ "real_exit") (h2 : s ≠ "restart") (h3 : s ≠ "") :
    (handleOptionTransition (some s) n st).current_phase = s := by
  unfold handleOptionTransition
  rw [if_neg (by simp [h1]), if_neg (by simp [h2])]
  by_cases h4 : some s = some "end_waiting" ∨ some s = some "end_no_slide"
  · rw [if_pos h4]
    rcases h4 with h4 | h4 <;> rw [Option.some.injEq] at h4 <;> simp [h4]
  · rw [if_neg h4]
    by_cases h5 : some s = some "waiting_reminder"
    · rw [if_pos h5]
      rw [Option.some.injEq] at h5
      simp [h5]
    · rw [if_neg h5, if_pos (by simp [pythonTruthy, h3])]
      simp

lemma handleOptionTransition_plain_state (n : ℕ) (st : NavState) (s : String)
    (h1 : s ≠ "real_exit") (h2 : s ≠ "restart") :
    (handleOptionTransition (some s) n st).scenario_completed = st.scenario_completed := by
  unfold handleOptionTransition
  rw [if_neg (by simp [h1]), if_neg (by simp [h2])]
  by_cases h4 : some s = some "end_waiting" ∨ some s = some "end_no_slide"
  · rw [if_pos h4]
  · rw [if_neg h4]
    by_cases h5 : some s = some "waiting_reminder"
    · rw [if_pos h5]
    · rw [if_neg h5]
      by_cases h6 : pythonTruthy (some s) = true
      · rw [if_pos h6]
      · rw [if_neg h6]

lemma handleOptionTransition_real_exit (n : ℕ) (st : NavState) :
    (handleOptionTransition (some "real_exit") n st).current_phase = "exit"
    ∧ (handleOptionTransition (some "real_exit") n st).scenario_completed = true
    ∧ (handleOptionTransition (some "real_exit") n st).current_scenario_index
        = (if (st.current_scenario_index : ℤ) < (n : ℤ) - 1 then
            st.current_scenario_index + 1 else st.current_scenario_index) := by
  unfold handleOptionTransition
  rw [if_pos rfl]
  by_cases hmem : st.current_scenario_index ∈ st.scenario_completed_indexes <;>
    by_cases hidx : (st.current_scenario_index : ℤ) < (n : ℤ) - 1 <;>
      simp [hmem, hidx]

/-- C3: resolving a selected option: real_exit marks the scenario
completed, advances the scenario index exactly when a later scenario
exists, and sets the phase to exit; restart goes to entering; an absent
next_phase goes to exit; every other non-empty next_phase value becomes
the current phase verbatim. -/
theorem handle_option_selection_transitions (next : Option String) (n : ℕ)
    (st : NavState) :
    (next = some "real_exit" →
        (handleOptionTransition next n st).scenario_completed = true
        ∧ (handleOptionTransition next n st).current_phase = "exit"
        ∧ (st.current_scenario_index + 1 < n →
            (handleOptionTransition next n st).current_scenario_index
              = st.current_scenario_index + 1)
        ∧ (¬ st.current_scenario_index + 1 < n →
            (handleOptionTransition next n st).current_scenario_index
              = st.current_scenario_index))
    ∧ (next = some "restart" →
        (handleOptionTransition next n st).current_phase = "entering")
    ∧ (next = none → (handleOptionTransition next n st).current_phase = "exit")
    ∧ (∀ s : String, next = some s → s ≠ "" → s ≠ "real_exit" → s ≠ "restart" →
        (handleOptionTransition next n st).current_phase = s) := by
  refine ⟨?_, ?_, ?_, ?_⟩
  · rintro rfl
    obtain ⟨hp, hc, hi⟩ := handleOptionTransition_real_exit n st
    refine ⟨hc, hp, ?_, ?_⟩
    · intro hlt
      rw [hi, if_pos (by omega)]
    · intro hge
      rw [hi, if_neg (by omega)]
  · rintro rfl
    unfold handleOptionTransition
    rw [if_neg (by decide), if_pos rfl]
  · rintro rfl
    unfold handleOptionTransition
    rw [if_neg (by decide), if_neg (by decide), if_neg (by decide),
      if_neg (by decide), if_neg (by decide)]
  · rintro s rfl h3 h1 h2
    exact handleOptionTransition_plain n st s h1 h2 h3

/-- Witness for C3 at the restart sentinel. -/
theorem handle_option_selection_transitions_witness :
    (handleOptionTransition (some "restart") 3
      ⟨0, "waiting", false, false, none, []⟩).current_phase = "entering" :=
  (handle_option_selection_transitions (some "restart") 3
    ⟨0, "waiting", false, false, none, []⟩).2.1 rfl

/-- C7 as stated is false: at the end_waiting phase of the slide scenario
the single option has next_phase exit, so selecting it transitions the
play-through to the exit phase, a further (distinct, not yet completed)
phase of the same scenario. -/
theorem terminal_phases_counterexample :
    ("end_waiting", [("a", some "exit")]) ∈ slideScenarioPhases
    ∧ "end_waiting" ∈ terminalPhases
    ∧ (handleOptionTransition (some "exit") 3
        ⟨0, "end_waiting", false, false, none, []⟩).current_phase = "exit"
    ∧ (handleOptionTransition (some "exit") 3
        ⟨0, "end_waiting", false, false, none, []⟩).scenario_completed = false
    ∧ "exit" ∈ slideScenarioPhases.map Prod.fst
    ∧ ("exit" : String) ≠ "end_waiting" := by
  decide

/-- C7 amended: over the populated scenario graphs, the set
exit/end_waiting/end_no_slide is closed under option selection — an option
at end_waiting or end_no_slide leads to the exit phase, and the option at
exit (real_exit) completes the scenario and leaves the phase at exit; no
option at any of these phases leaves the terminal set. -/
theorem terminal_phase_set_closed :
    ∀ sc ∈ populatedScenarios, ∀ p opts, (p, opts) ∈ sc → p ∈ terminalPhases →
      ∀ oid np, (oid, np) ∈ opts → ∀ (n : ℕ) (st : NavState),
        (handleOptionTransition np n st).current_phase ∈ terminalPhases
        ∧ (p = "exit" →
            (handleOptionTransition np n st).scenario_completed = true) := by
  have key : ∀ sc ∈ populatedScenarios, ∀ po ∈ sc, po.1 ∈ terminalPhases →
      ∀ o ∈ po.2, (o.2 = some "exit" ∧ po.1 ≠ "exit")
        ∨ (o.2 = some "real_exit" ∧ po.1 = "exit") := by
    decide
  intro sc hsc p opts hmem hterm oid np hopt n st
  rcases key sc hsc (p, opts) hmem hterm (oid, np) hopt with ⟨h1, h2⟩ | ⟨h1, h2⟩
  · subst h1
    constructor
    · rw [handleOptionTransition_plain n st "exit" (by decide) (by decide) (by decide)]
      decide
    · intro hp
      exact absurd hp h2
  · subst h1
    obtain ⟨hp, hc, _⟩ := handleOptionTransition_real_exit n st
    constructor
    · rw [hp]
      decide
    · intro _
      exact hc

/-- Witness for C7 amended at the exit phase of the slide scenario. -/
theorem terminal_phase_set_closed_witness :
    (handleOptionTransition (some "real_exit") 3
        ⟨0, "exit", false, false, none, []⟩).current_phase ∈ terminalPhases
    ∧ ("exit" = "exit" →
        (handleOptionTransition (some "real_exit") 3
          ⟨0, "exit", false, false, none, []⟩).scenario_completed = true) :=
  terminal_phase_set_closed slideScenarioPhases (by decide) "exit"
    [("a", some "real_exit")] (by decide) (by decide) "a" (some "real_exit")
    (by decide) 3 ⟨0, "exit", false, false, none, []⟩

/-- C8 as stated is false: with the camera disabled (or the WebRTC context
inactive) get_attention_state returns Unknown, which is not one of the
three coarse classifications; likewise the sustained computation returns
Unknown on an all-Unknown history. -/
theorem attention_state_counterexample :
    get_attention_state false false "Attentive" = "Unknown"
    ∧ "Unknown" ∉ coarseAttentionStates
    ∧ analyzeSustainedAttention ["Unknown"] = "Unknown" := by
  refine ⟨by decide, by decide, ?_⟩
  unfold analyzeSustainedAttention
  rw [if_pos (by decide)]

/-- C8 amended: get_attention_state and the sustained-attention
computation always return one of Attentive, Partially Attentive,
Not Attentive or Unknown (the former whenever the stored latest value is
in that range), and on a history holding at least one non-Unknown entry
the sustained classification is one of the three coarse states. -/
theorem attention_state_amended :
    (∀ (camera_enabled webrtc_ctx_active : Bool) (latest : String),
        latest ∈ attentionStatesWithUnknown →
        get_attention_state camera_enabled webrtc_ctx_active latest
          ∈ attentionStatesWithUnknown)
    ∧ (∀ history : List String,
        analyzeSustainedAttention history ∈ attentionStatesWithUnknown)
    ∧ (∀ history : List String, (∃ x ∈ history, x ≠ "Unknown") →
        analyzeSustainedAttention history ∈ coarseAttentionStates) := by
  refine ⟨?_, ?_, ?_⟩
  · intro c a latest hl
    unfold get_attention_state
    split_ifs
    · decide
    · exact hl
  · intro history
    unfold analyzeSustainedAttention
    split_ifs <;> decide
  · rintro history ⟨x, hx, hxu⟩
    unfold analyzeSustainedAttention
    rw [if_neg ?_]
    · split_ifs <;> decide
    · rw [count_eq_length_iff_all]
      intro hall
      exact hxu (hall x hx)

/-- Witness for C8 amended with the camera on and a one-entry history. -/
theorem attention_state_amended_witness :
    get_attention_state true true "Attentive" ∈ attentionStatesWithUnknown
    ∧ analyzeSustainedAttention ["Attentive"] ∈ coarseAttentionStates :=
  ⟨attention_state_amended.1 true true "Attentive" (by decide),
   attention_state_amended.2.2 ["Attentive"] ⟨"Attentive", by decide, by decide⟩⟩

lemma record_response_fail0 (fail : ℕ → Bool) (s : String) (sc : ℕ)
    (p o : String) (e : Option String) (db : DbState) (h0 : fail 0 = true) :
    record_response fail s sc p o e db
      = (db, Except.error "Error recording response") := by
  unfold record_response DbTransaction recordResponseBody
  rw [if_pos h0]

lemma record_response_duplicate (fail : ℕ → Bool) (s : String) (sc : ℕ)
    (p o : String) (e : Option String) (db : DbState) (r : ResponseRow)
    (h0 : fail 0 = false)
    (hfind : db.responses.find? (responseMatches s sc p o) = some r) :
    record_response fail s sc p o e db = (db, Except.ok r.id) := by
  unfold record_response DbTransaction recordResponseBody
  rw [if_neg (by simp [h0]), hfind]

lemma record_response_fail1 (fail : ℕ → Bool) (s : String) (sc : ℕ)
    (p o : String) (e : Option String) (db : DbState)
    (h0 : fail 0 = false) (h1 : fail 1 = true)
    (hfind : db.responses.find? (responseMatches s sc p o) = none) :
    record_response fail s sc p o e db
      = (db, Except.error "Error recording response") := by
  unfold record_response DbTransaction recordResponseBody
  rw [if_neg (by simp [h0]), hfind, if_pos h1]

lemma record_response_fail2 (fail : ℕ → Bool) (s : String) (sc : ℕ)
    (p o : String) (e : Option String) (db : DbState)
    (h0 : fail 0 = false) (h1 : fail 1 = false) (h2 : fail 2 = true)
    (hneg : e ∈ negativeEmotions)
    (hfind : db.responses.find? (responseMatches s sc p o) = none) :
    record_response fail s sc p o e db
      = (db, Except.error "Error recording response") := by
  unfold record_response DbTransaction recordResponseBody
  rw [if_neg (by simp [h0]), hfind, if_neg (by simp [h1]), if_pos hneg, if_pos h2]

lemma record_response_fresh_neg (fail : ℕ → Bool) (s : String) (sc : ℕ)
    (p o : String) (e : Option String) (db : DbState)
    (h0 : fail 0 = false) (h1 : fail 1 = false) (h2 : fail 2 = false)
    (hneg : e ∈ negativeEmotions)
    (hfind : db.responses.find? (responseMatches s sc p o) = none) :
    record_response fail s sc p o e db
      = ({ db with
            responses := db.responses ++ [⟨db.nextResponseId, s, sc, p, o, e⟩]
            nextResponseId := db.nextResponseId + 1
            parent_alerts := db.parent_alerts ++
              [⟨db.nextAlertId, s, sc, p, e.getD ""⟩]
            nextAlertId := db.nextAlertId + 1 },
         Except.ok db.nextAlertId) := by
  unfold record_response DbTransaction recordResponseBody
  rw [if_neg (by simp [h0]), hfind, if_neg (by simp [h1]), if_pos hneg,
    if_neg (by simp [h2])]

lemma record_response_fresh_other (fail : ℕ → Bool) (s : String) (sc : ℕ)
    (p o : String) (e : Option String) (db : DbState)
    (h0 : fail 0 = false) (h1 : fail 1 = false)
    (hneg : e ∉ negativeEmotions)
    (hfind : db.responses.find? (responseMatches s sc p o) = none) :
    record_response fail s sc p o e db
      = ({ db with
            responses := db.responses ++ [⟨db.nextResponseId, s, sc, p, o, e⟩]
            nextResponseId := db.nextResponseId + 1 },
         Except.ok db.nextResponseId) := by
  unfold record_response DbTransaction recordResponseBody
  rw [if_neg (by simp [h0]), hfind, if_neg (by simp [h1]), if_neg hneg]

lemma record_response_ok_has_row (fail : ℕ → Bool) (s : String) (sc : ℕ)
    (p o : String) (e : Option String) (db db1 : DbState) (v : ℕ)
    (h : record_response fail s sc p o e db = (db1, Except.ok v)) :
    ∃ r, db1.responses.find? (responseMatches s sc p o) = some r := by
  cases h0 : fail 0 with
  | true =>
    rw [record_response_fail0 fail s sc p o e db h0] at h
    simp at h
  | false =>
    cases hfind : db.responses.find? (responseMatches s sc p o) with
    | some r =>
      rw [record_response_duplicate fail s sc p o e db r h0 hfind] at h
      obtain ⟨hdb, _⟩ := Prod.mk.injEq .. ▸ h
      exact ⟨r, by rw [← hdb]; exact hfind⟩
    | none =>
      have happ : (db.responses ++ [(⟨db.nextResponseId, s, sc, p, o, e⟩ : ResponseRow)]).find?
          (responseMatches s sc p o)
          = some ⟨db.nextResponseId, s, sc, p, o, e⟩ := by
        rw [List.find?_append, hfind]
        simp [responseMatches]
      cases h1 : fail 1 with
      | true =>
        rw [record_response_fail1 fail s sc p o e db h0 h1 hfind] at h
        simp at h
      | false =>
        by_cases hneg : e ∈ negativeEmotions
        · cases h2 : fail 2 with
          | true =>
            rw [record_response_fail2 fail s sc p o e db h0 h1 h2 hneg hfind] at h
            simp at h
          | false =>
            rw [record_response_fresh_neg fail s sc p o e db h0 h1 h2 hneg hfind] at h
            obtain ⟨hdb, _⟩ := Prod.mk.injEq .. ▸ h
            refine ⟨⟨db.nextResponseId, s, sc, p, o, e⟩, ?_⟩
            rw [← hdb]
            exact happ
        · rw [record_response_fresh_other fail s sc p o e db h0 h1 hneg hfind] at h
          obtain ⟨hdb, _⟩ := Prod.mk.injEq .. ▸ h
          refine ⟨⟨db.nextResponseId, s, sc, p, o, e⟩, ?_⟩
          rw [← hdb]
          exact happ

/-- C1: recording is idempotent on (session, scenario, phase, option).
After any successful record_response call, a second call with the same
four keys (and any emotion) leaves the database unchanged, and when its
duplicate-check SELECT succeeds it returns the id of the already-existing
response row. -/
theorem record_response_idempotent (fail₁ fail₂ : ℕ → Bool) (db : DbState)
    (s : String) (sc : ℕ) (p o : String) (e e' : Option String)
    (db1 : DbState) (v1 : ℕ)
    (h : record_response fail₁ s sc p o e db = (db1, Except.ok v1))
    (h0 : fail₂ 0 = false) :
    (record_response fail₂ s sc p o e' db1).1 = db1
    ∧ ∃ r, db1.responses.find? (responseMatches s sc p o) = some r
        ∧ record_response fail₂ s sc p o e' db1 = (db1, Except.ok r.id) := by
  obtain ⟨r, hr⟩ := record_response_ok_has_row fail₁ s sc p o e db db1 v1 h
  have hdup := record_response_duplicate fail₂ s sc p o e' db1 r h0 hr
  exact ⟨by rw [hdup], r, hr, hdup⟩

/-- Witness for C1: insert into the empty store, then call again. -/
theorem record_response_idempotent_witness :
    (record_response (fun _ => false) "s1" 1 "entering" "a" (some "happy")
        (⟨[⟨1, "s1", 1, "entering", "a", none⟩], [], [], 2, 1, 1⟩ : DbState)).1
      = (⟨[⟨1, "s1", 1, "entering", "a", none⟩], [], [], 2, 1, 1⟩ : DbState)
    ∧ ∃ r, (⟨[⟨1, "s1", 1, "entering", "a", none⟩], [], [], 2, 1, 1⟩ :
          DbState).responses.find? (responseMatches "s1" 1 "entering" "a") = some r
        ∧ record_response (fun _ => false) "s1" 1 "entering" "a" (some "happy")
            (⟨[⟨1, "s1", 1, "entering", "a", none⟩], [], [], 2, 1, 1⟩ : DbState)
          = ((⟨[⟨1, "s1", 1, "entering", "a", none⟩], [], [], 2, 1, 1⟩ : DbState),
             Except.ok r.id) :=
  record_response_idempotent (fun _ => false) (fun _ => false)
    (⟨[], [], [], 1, 1, 1⟩ : DbState) "s1" 1 "entering" "a" none (some "happy")
    (⟨[⟨1, "s1", 1, "entering", "a", none⟩], [], [], 2, 1, 1⟩ : DbState) 1 rfl rfl

/-- C2 as stated is false: a record_response call whose four keys already
match an existing response returns early, so even with the distress
emotion angry no parent alert row is inserted. -/
theorem parent_alert_counterexample :
    (some "angry") ∈ negativeEmotions
    ∧ (record_response (fun _ => false) "s1" 1 "entering" "a" (some "angry")
        (⟨[⟨1, "s1", 1, "entering", "a", none⟩], [], [], 2, 1, 1⟩ : DbState)).1.parent_alerts
      = []
    ∧ (record_response (fun _ => false) "s1" 1 "entering" "a" (some "angry")
        (⟨[⟨1, "s1", 1, "entering", "a", none⟩], [], [], 2, 1, 1⟩ : DbState)).2
      = Except.ok 1 := by
  refine ⟨by decide, ?_, ?_⟩ <;>
    rw [record_response_duplicate (fun _ => false) "s1" 1 "entering" "a"
      (some "angry")
      (⟨[⟨1, "s1", 1, "entering", "a", none⟩], [], [], 2, 1, 1⟩ : DbState)
      ⟨1, "s1", 1, "entering", "a", none⟩ rfl rfl]

/-- C2 amended: a record_response call that inserts a new response row
(no existing row matches its four keys, all statements succeed) inserts a
parent alert with the same session, scenario, phase and emotion exactly
when the emotion is angry, sad or negative; calls with any other or no
emotion, and calls whose keys match an existing response, insert no
alert. -/
theorem parent_alert_amended :
    (∀ (fail : ℕ → Bool) (s : String) (sc : ℕ) (p o : String)
        (e : Option String) (db : DbState),
        fail 0 = false → fail 1 = false → fail 2 = false →
        db.responses.find? (responseMatches s sc p o) = none →
        e ∈ negativeEmotions →
        (record_response fail s sc p o e db).1.parent_alerts
          = db.parent_alerts ++ [⟨db.nextAlertId, s, sc, p, e.getD ""⟩])
    ∧ (∀ (fail : ℕ → Bool) (s : String) (sc : ℕ) (p o : String)
        (e : Option String) (db : DbState), e ∉ negativeEmotions →
        (record_response fail s sc p o e db).1.parent_alerts = db.parent_alerts)
    ∧ (∀ (fail : ℕ → Bool) (s : String) (sc : ℕ) (p o : String)
        (e : Option String) (db : DbState) (r : ResponseRow),
        db.responses.find? (responseMatches s sc p o) = some r →
        (record_response fail s sc p o e db).1.parent_alerts = db.parent_alerts) := by
  refine ⟨?_, ?_, ?_⟩
  · intro fail s sc p o e db h0 h1 h2 hfind hneg
    rw [record_response_fresh_neg fail s sc p o e db h0 h1 h2 hneg hfind]
  · intro fail s sc p o e db hneg
    cases h0 : fail 0 with
    | true => rw [record_response_fail0 fail s sc p o e db h0]
    | false =>
      cases hfind : db.responses.find? (responseMatches s sc p o) with
      | some r => rw [record_response_duplicate fail s sc p o e db r h0 hfind]
      | none =>
        cases h1 : fail 1 with
        | true => rw [record_response_fail1 fail s sc p o e db h0 h1 hfind]
        | false =>
          rw [record_response_fresh_other fail s sc p o e db h0 h1 hneg hfind]
  · intro fail s sc p o e db r hfind
    cases h0 : fail 0 with
    | true => rw [record_response_fail0 fail s sc p o e db h0]
    | false => rw [record_response_duplicate fail s sc p o e db r h0 hfind]

/-- Witness for C2 amended: a fresh insert with emotion sad creates the
alert. -/
theorem parent_alert_amended_witness :
    (record_response (fun _ => false) "s1" 1 "entering" "a" (some "sad")
        (⟨[], [], [], 1, 1, 1⟩ : DbState)).1.parent_alerts
      = (⟨[], [], [], 1, 1, 1⟩ : DbState).parent_alerts ++
          [⟨(⟨[], [], [], 1, 1, 1⟩ : DbState).nextAlertId, "s1", 1, "entering",
            (some "sad").getD ""⟩] :=
  parent_alert_amended.1 (fun _ => false) "s1" 1 "entering" "a" (some "sad")
    (⟨[], [], [], 1, 1, 1⟩ : DbState) rfl rfl rfl rfl (by decide)

lemma record_emotion_detection_eval (fail : ℕ → Bool) (s e : String) (c : ℚ)
    (db : DbState) :
    record_emotion_detection fail s e c db
      = if fail 0 then (db, Except.error "Error recording emotion")
        else ({ db with
                emotion_detections := db.emotion_detections ++
                  [⟨db.nextEmotionId, s, e, c⟩]
                nextEmotionId := db.nextEmotionId + 1 },
              Except.ok db.nextEmotionId) := by
  unfold record_emotion_detection DbTransaction recordEmotionDetectionBody
  by_cases h0 : fail 0 = true
  · rw [if_pos h0, if_pos h0]
  · rw [if_neg h0, if_neg h0]

/-- C6: each recording operation is transactional.  When record_response
or record_emotion_detection reports an error the database is unchanged
(every partial insert rolled back); when record_response succeeds on a
fresh key, the response row and, for a distress emotion, the parent alert
row are committed together; when record_emotion_detection succeeds its row
is committed. -/
theorem recording_transactional :
    (∀ (fail : ℕ → Bool) (s : String) (sc : ℕ) (p o : String)
        (e : Option String) (db : DbState),
        (record_response fail s sc p o e db).2.isOk = false →
        (record_response fail s sc p o e db).1 = db)
    ∧ (∀ (fail : ℕ → Bool) (s : String) (sc : ℕ) (p o : String)
        (e : Option String) (db : DbState) (v : ℕ),
        db.responses.find? (responseMatches s sc p o) = none →
        (record_response fail s sc p o e db).2 = Except.ok v →
        (record_response fail s sc p o e db).1.responses
            = db.responses ++ [⟨db.nextResponseId, s, sc, p, o, e⟩]
          ∧ (record_response fail s sc p o e db).1.parent_alerts
            = (if e ∈ negativeEmotions then
                db.parent_alerts ++ [⟨db.nextAlertId, s, sc, p, e.getD ""⟩]
              else db.parent_alerts))
    ∧ (∀ (fail : ℕ → Bool) (s e : String) (c : ℚ) (db : DbState),
        ((record_emotion_detection fail s e c db).2.isOk = false →
          (record_emotion_detection fail s e c db).1 = db)
        ∧ (∀ v : ℕ, (record_emotion_detection fail s e c db).2 = Except.ok v →
            (record_emotion_detection fail s e c db).1.emotion_detections
              = db.emotion_detections ++ [⟨db.nextEmotionId, s, e, c⟩])) := by
  refine ⟨?_, ?_, ?_⟩
  · intro fail s sc p o e db hko
    unfold record_response DbTransaction at hko ⊢
    cases hbody : recordResponseBody fail s sc p o e db with
    | error err => rfl
    | ok pv =>
      rw [hbody] at hko
      simp [Except.isOk, Except.toBool] at hko
  · intro fail s sc p o e db v hfind hok
    cases h0 : fail 0 with
    | true =>
      rw [record_response_fail0 fail s sc p o e db h0] at hok
      simp at hok
    | false =>
      cases h1 : fail 1 with
      | true =>
        rw [record_response_fail1 fail s sc p o e db h0 h1 hfind] at hok
        simp at hok
      | false =>
        by_cases hneg : e ∈ negativeEmotions
        · cases h2 : fail 2 with
          | true =>
            rw [record_response_fail2 fail s sc p o e db h0 h1 h2 hneg hfind] at hok
            simp at hok
          | false =>
            rw [record_response_fresh_neg fail s sc p o e db h0 h1 h2 hneg hfind,
              if_pos hneg]
            exact ⟨rfl, rfl⟩
        · rw [record_response_fresh_other fail s sc p o e db h0 h1 hneg hfind,
            if_neg hneg]
          exact ⟨rfl, rfl⟩
  · intro fail s e c db
    constructor
    · intro hko
      rw [record_emotion_detection_eval] at hko ⊢
      cases h0 : fail 0 with
      | true => rfl
      | false =>
        rw [h0] at hko
        simp [Except.isOk, Except.toBool] at hko
    · intro v hok
      rw [record_emotion_detection_eval] at hok ⊢
      cases h0 : fail 0 with
      | true =>
        rw [h0] at hok
        simp at hok
      | false => rfl

/-- Witness for C6: a failing alert insert rolls back the response insert,
and a fully successful call commits both rows. -/
theorem recording_transactional_witness :
    ((record_response (fun i => i == 2) "s1" 1 "entering" "a" (some "angry")
        (⟨[], [], [], 1, 1, 1⟩ : DbState)).2.isOk = false →
      (record_response (fun i => i == 2) "s1" 1 "entering" "a" (some "angry")
        (⟨[], [], [], 1, 1, 1⟩ : DbState)).1 = (⟨[], [], [], 1, 1, 1⟩ : DbState))
    ∧ ((record_response (fun _ => false) "s1" 1 "entering" "a" (some "angry")
        (⟨[], [], [], 1, 1, 1⟩ : DbState)).1.responses
          = (⟨[], [], [], 1, 1, 1⟩ : DbState).responses ++
              [⟨(⟨[], [], [], 1, 1, 1⟩ : DbState).nextResponseId, "s1", 1,
                "entering", "a", some "angry"⟩]
        ∧ (record_response (fun _ => false) "s1" 1 "entering" "a" (some "angry")
            (⟨[], [], [], 1, 1, 1⟩ : DbState)).1.parent_alerts
          = (if (some "angry") ∈ negativeEmotions then
              (⟨[], [], [], 1, 1, 1⟩ : DbState).parent_alerts ++
                [⟨(⟨[], [], [], 1, 1, 1⟩ : DbState).nextAlertId, "s1", 1,
                  "entering", (some "angry").getD ""⟩]
            else (⟨[], [], [], 1, 1, 1⟩ : DbState).parent_alerts)) :=
  ⟨recording_transactional.1 (fun i => i == 2) "s1" 1 "entering" "a"
      (some "angry") (⟨[], [], [], 1, 1, 1⟩ : DbState),
   recording_transactional.2.1 (fun _ => false) "s1" 1 "entering" "a"
      (some "angry") (⟨[], [], [], 1, 1, 1⟩ : DbState) 1 rfl rfl⟩

instance : IsTotal SessionResponseJoinRow (fun a b => a.timestamp ≤ b.timestamp) :=
  ⟨fun a b => Nat.le_total a.timestamp b.timestamp⟩

instance : IsTrans SessionResponseJoinRow (fun a b => a.timestamp ≤ b.timestamp) :=
  ⟨fun _ _ _ => Nat.le_trans⟩

lemma dedupResponses_subset :
    ∀ (l : List SessionResponseJoinRow) (seen : List (ℕ × String × String)),
      ∀ r ∈ dedupResponses l seen, r ∈ l := by
  intro l
  induction l with
  | nil =>
    intro seen r hr
    simp [dedupResponses] at hr
  | cons x rest ih =>
    intro seen r hr
    unfold dedupResponses at hr
    by_cases hmem : responseKey x ∈ seen
    · rw [if_pos hmem] at hr
      exact List.mem_cons_of_mem x (ih seen r hr)
    · rw [if_neg hmem] at hr
      rcases List.mem_cons.mp hr with h | h
      · exact h ▸ List.mem_cons_self x rest
      · exact List.mem_cons_of_mem x (ih _ r h)

lemma dedupResponses_not_seen :
    ∀ (l : List SessionResponseJoinRow) (seen : List (ℕ × String × String)),
      ∀ r ∈ dedupResponses l seen, responseKey r ∉ seen := by
  intro l
  induction l with
  | nil =>
    intro seen r hr
    simp [dedupResponses] at hr
  | cons x rest ih =>
    intro seen r hr
    unfold dedupResponses at hr
    by_cases hmem : responseKey x ∈ seen
    · rw [if_pos hmem] at hr
      exact ih seen r hr
    · rw [if_neg hmem] at hr
      rcases List.mem_cons.mp hr with h | h
      · exact h ▸ hmem
      · intro hc
        exact ih _ r h (List.mem_cons_of_mem _ hc)

lemma dedupResponses_keys_nodup :
    ∀ (l : List SessionResponseJoinRow) (seen : List (ℕ × String × String)),
      ((dedupResponses l seen).map responseKey).Nodup := by
  intro l
  induction l with
  | nil =>
    intro seen
    simp [dedupResponses]
  | cons x rest ih =>
    intro seen
    unfold dedupResponses
    by_cases hmem : responseKey x ∈ seen
    · rw [if_pos hmem]
      exact ih seen
    · rw [if_neg hmem]
      rw [List.map_cons, List.nodup_cons]
      refine ⟨?_, ih _⟩
      intro hc
      obtain ⟨r, hr, hkey⟩ := List.mem_map.mp hc
      exact dedupResponses_not_seen rest _ r hr (hkey ▸ List.mem_cons_self _ _)

lemma dedupResponses_earliest :
    ∀ (l : List SessionResponseJoinRow) (seen : List (ℕ × String × String)),
      List.Sorted (fun a b => a.timestamp ≤ b.timestamp) l →
      ∀ r ∈ dedupResponses l seen, ∀ q ∈ l,
        responseKey q = responseKey r → r.timestamp ≤ q.timestamp := by
  intro l
  induction l with
  | nil =>
    intro seen _ r hr
    simp [dedupResponses] at hr
  | cons x rest ih =>
    intro seen hsort r hr q hq hkey
    obtain ⟨hx, hrest⟩ := List.sorted_cons.mp hsort
    unfold dedupResponses at hr
    by_cases hmem : responseKey x ∈ seen
    · rw [if_pos hmem] at hr
      rcases List.mem_cons.mp hq with hqx | hqr
      · refine absurd ?_ (dedupResponses_not_seen rest seen r hr)
        rw [← hkey, hqx]
        exact hmem
      · exact ih seen hrest r hr q hqr hkey
    · rw [if_neg hmem] at hr
      rcases List.mem_cons.mp hr with hrx | hrr
      · subst hrx
        rcases List.mem_cons.mp hq with hqx | hqr
        · rw [hqx]
        · exact hx q hqr
      · rcases List.mem_cons.mp hq with hqx | hqr
        · exfalso
          have : responseKey r ∈ responseKey x :: seen :=
            hqx ▸ hkey ▸ List.mem_cons_self _ _
          exact dedupResponses_not_seen rest _ r hrr this
        · exact ih _ hrest r hrr q hqr hkey

lemma dedupResponses_complete :
    ∀ (l : List SessionResponseJoinRow) (seen : List (ℕ × String × String)),
      ∀ q ∈ l, responseKey q ∉ seen →
        ∃ r ∈ dedupResponses l seen, responseKey r = responseKey q := by
  intro l
  induction l with
  | nil =>
    intro seen q hq
    simp at hq
  | cons x rest ih =>
    intro seen q hq hqs
    unfold dedupResponses
    by_cases hmem : responseKey x ∈ seen
    · rw [if_pos hmem]
      rcases List.mem_cons.mp hq with hqx | hqr
      · exact absurd (hqx ▸ hqs) (fun hc => hc (hqx ▸ hmem))
      · exact ih seen q hqr hqs
    · rw [if_neg hmem]
      rcases List.mem_cons.mp hq with hqx | hqr
      · exact ⟨x, List.mem_cons_self _ _, by rw [hqx]⟩
      · by_cases hqk : responseKey q = responseKey x
        · exact ⟨x, List.mem_cons_self _ _, hqk.symm⟩
        · obtain ⟨r, hr, hrk⟩ := ih (responseKey x :: seen) q hqr
            (by
              intro hc
              rcases List.mem_cons.mp hc with h | h
              · exact hqk h
              · exact hqs h)
          exact ⟨r, List.mem_cons_of_mem x hr, hrk⟩

lemma dedupResponses_of_nodup :
    ∀ (l : List SessionResponseJoinRow) (seen : List (ℕ × String × String)),
      (l.map responseKey).Nodup → (∀ r ∈ l, responseKey r ∉ seen) →
      dedupResponses l seen = l := by
  intro l
  induction l with
  | nil =>
    intro seen _ _
    rfl
  | cons x rest ih =>
    intro seen hnd hns
    obtain ⟨hx, hrest⟩ := List.nodup_cons.mp (List.map_cons responseKey x rest ▸ hnd)
    unfold dedupResponses
    rw [if_neg (hns x (List.mem_cons_self _ _))]
    rw [ih _ hrest ?_]
    intro r hr hc
    rcases List.mem_cons.mp hc with h | h
    · exact hx (h ▸ List.mem_map_of_mem responseKey hr)
    · exact hns r (List.mem_cons_of_mem x hr) h

/-- C4: get_session_responses keeps at most one row per
(scenario_id, phase_id, option_id) triple — the earliest by timestamp
among the session's rows, every kept row coming from the table and every
triple still represented — and the report statistics (positive choices,
needed guidance, total) are counts over exactly these deduplicated
rows. -/
theorem get_session_responses_dedup (rows : List SessionResponseJoinRow) :
    ((get_session_responses rows).map responseKey).Nodup
    ∧ (∀ r ∈ get_session_responses rows, r ∈ rows)
    ∧ (∀ r ∈ get_session_responses rows, ∀ q ∈ rows,
        responseKey q = responseKey r → r.timestamp ≤ q.timestamp)
    ∧ (∀ q ∈ rows, ∃ r ∈ get_session_responses rows,
        responseKey r = responseKey q)
    ∧ showReportStats (get_session_responses rows)
      = ((get_session_responses rows).countP (fun r => r.positive),
         (get_session_responses rows).countP (fun r => r.guidance),
         (get_session_responses rows).length) := by
  have hperm := List.perm_insertionSort
    (fun a b : SessionResponseJoinRow => a.timestamp ≤ b.timestamp) rows
  have hsort := List.sorted_insertionSort
    (fun a b : SessionResponseJoinRow => a.timestamp ≤ b.timestamp) rows
  refine ⟨dedupResponses_keys_nodup _ [], ?_, ?_, ?_, ?_⟩
  · intro r hr
    exact hperm.mem_iff.mp (dedupResponses_subset _ [] r hr)
  · intro r hr q hq hkey
    exact dedupResponses_earliest _ [] hsort r hr q (hperm.mem_iff.mpr hq) hkey
  · intro q hq
    exact dedupResponses_complete _ [] q (hperm.mem_iff.mpr hq) (by simp)
  · unfold showReportStats
    rw [dedupResponses_of_nodup (get_session_responses rows) []
      (dedupResponses_keys_nodup _ []) (by simp)]

/-- Witness for C4 on two rows sharing a triple, timestamps 5 and 3. -/
theorem get_session_responses_dedup_witness :
    (⟨1, 1, "entering", "a", none, 3, true, false⟩ : SessionResponseJoinRow).timestamp
      ≤ (⟨2, 1, "entering", "a", none, 5, false, true⟩ : SessionResponseJoinRow).timestamp :=
  (get_session_responses_dedup
      [⟨2, 1, "entering", "a", none, 5, false, true⟩,
       ⟨1, 1, "entering", "a", none, 3, true, false⟩]).2.2.1
    ⟨1, 1, "entering", "a", none, 3, true, false⟩ (by decide)
    ⟨2, 1, "entering", "a", none, 5, false, true⟩ (by decide) (by decide)

/-- C9: once get_scenario_by_id has returned a nested scenario structure,
a later call with the same id against the resulting cache and an unchanged
store returns the same structure without querying the database, and every
successful add_scenario, update_scenario or delete_scenario clears the
entire cache (failed ones leave it alone, so the property speaks only of
successful mutations). -/
theorem scenario_cache_consistent :
    (∀ (store : Store) (cache : ScenarioCache) (sid : ℕ) (s : ScenarioNode)
        (cache1 : ScenarioCache) (q1 : Bool),
        get_scenario_by_id store cache sid = (some s, cache1, q1) →
        get_scenario_by_id store cache1 sid = (some s, cache1, false))
    ∧ (∀ (fail : Bool) (store : Store) (cache : ScenarioCache)
        (data : ScenarioData),
        (add_scenario fail store cache data).2.2 = true →
        (add_scenario fail store cache data).2.1
          = ([] : List (String × ScenarioNode)))
    ∧ (∀ (fail : Bool) (store : Store) (cache : ScenarioCache) (sid : ℕ)
        (data : ScenarioData),
        (update_scenario fail store cache sid data).2.2 = true →
        (update_scenario fail store cache sid data).2.1
          = ([] : List (String × ScenarioNode)))
    ∧ (∀ (fail : Bool) (store : Store) (cache : ScenarioCache) (sid : ℕ),
        (delete_scenario fail store cache sid).2.2 = true →
        (delete_scenario fail store cache sid).2.1
          = ([] : List (String × ScenarioNode))) := by
  refine ⟨?_, ?_, ?_, ?_⟩
  · intro store cache sid s cache1 q1 h
    simp only [get_scenario_by_id] at h ⊢
    cases hl : List.lookup (scenarioCacheKey sid) (cache : List (String × ScenarioNode)) with
    | some cached =>
      rw [hl] at h
      simp only [Prod.mk.injEq, Option.some.injEq] at h
      obtain ⟨rfl, rfl, rfl⟩ := h
      rw [hl]
    | none =>
      rw [hl] at h
      cases hb : buildScenario store sid with
      | none =>
        rw [hb] at h
        simp at h
      | some scen =>
        rw [hb] at h
        simp only [Prod.mk.injEq, Option.some.injEq] at h
        obtain ⟨rfl, rfl, rfl⟩ := h
        simp [List.lookup]
  · intro fail store cache data hok
    cases fail with
    | true => simp [add_scenario] at hok
    | false => rfl
  · intro fail store cache sid data hok
    cases fail with
    | true => simp [update_scenario] at hok
    | false => rfl
  · intro fail store cache sid hok
    cases fail with
    | true => simp [delete_scenario] at hok
    | false => rfl

/-- Witness for C9: read a one-row store twice, and a successful add on an
empty cache. -/
theorem scenario_cache_consistent_witness :
    get_scenario_by_id (⟨[⟨1, "t", "d", "i"⟩], [], [], [], 1, 1, 1⟩ : Store)
        [(scenarioCacheKey 1, (⟨1, "t", "d", "i", []⟩ : ScenarioNode))] 1
      = (some (⟨1, "t", "d", "i", []⟩ : ScenarioNode),
         [(scenarioCacheKey 1, (⟨1, "t", "d", "i", []⟩ : ScenarioNode))], false)
    ∧ (add_scenario false (⟨[⟨1, "t", "d", "i"⟩], [], [], [], 1, 1, 1⟩ : Store)
        [(scenarioCacheKey 1, (⟨1, "t", "d", "i", []⟩ : ScenarioNode))]
        (⟨2, "t2", "d2", "i2", []⟩ : ScenarioData)).2.1
      = ([] : List (String × ScenarioNode)) :=
  ⟨scenario_cache_consistent.1
      (⟨[⟨1, "t", "d", "i"⟩], [], [], [], 1, 1, 1⟩ : Store) [] 1
      (⟨1, "t", "d", "i", []⟩ : ScenarioNode)
      [(scenarioCacheKey 1, (⟨1, "t", "d", "i", []⟩ : ScenarioNode))] true rfl,
   scenario_cache_consistent.2.1 false
      (⟨[⟨1, "t", "d", "i"⟩], [], [], [], 1, 1, 1⟩ : Store)
      [(scenarioCacheKey 1, (⟨1, "t", "d", "i", []⟩ : ScenarioNode))]
      (⟨2, "t2", "d2", "i2", []⟩ : ScenarioData) rfl⟩

end InterAIct
